import Mathlib

/-!
Shallow embedding of `src/page.tsx` of the apple_health_wrapped
repository, together with theorems settling the specification claims.

Modelling conventions:
* JavaScript numbers are modelled as rationals (`ℚ`); every numeric
  constant appearing in the source is exactly representable.
* A TypeScript parameter that may be `null`/`undefined` is modelled as an
  `Option`.  The JavaScript truthiness test `!x` on a numeric value is
  true for `null`/`undefined` and also for `0`; on a string it is also
  true for the empty string.  The embeddings of the guard clauses spell
  this out explicitly.
* JavaScript template-literal interpolation of a number (`${"${x}"}`) is
  kept abstract: render functions take a number-formatting function
  `fmt : ℚ → String` as a parameter.  Interpolating `null` or `undefined`
  yields the literal string "null" / falls through `??` fallbacks, which
  is modelled concretely.
-/

namespace AppleHealthWrapped

/-! ### Message helper functions (src/page.tsx lines 913-1058) -/

/-- Embedding of `getStepsMessage` (page.tsx line 913). -/
def getStepsMessage (steps : ℚ) : String :=
  if steps < 50000 then
    "Whoa... did your sneakers go on vacation? Your couch definitely won this year."
  else if steps < 200000 then
    "You kept things casual—enough movement to keep the playlists going, but room to roam."
  else if steps < 500000 then
    "You were active! That many steps is basically a never-ending city stroll."
  else
    "Holy moly cuz... that\x27s alot of steps!"

/-- Embedding of `getDistanceMessage` (page.tsx line 923). -/
def getDistanceMessage (km : ℚ) : String :=
  if km ≥ 1500 then "That\x27s like walking from Toronto to Minnesota!"
  else if km ≥ 800 then
    "You covered enough ground to stretch across a couple of countries."
  else if km ≥ 200 then
    "Solid grind: that’s a full-on road trip completed one stride at a time."
  else
    "Every kilometer counts—keep stacking them and the map won’t keep up."

/-- Embedding of `getFlightsMessage` (page.tsx line 932). -/
def getFlightsMessage (flights : ℚ) : String :=
  if flights = 0 then
    "Elevators only? No judgement, but even your smartwatch is side-eyeing you."
  else if flights < 200 then
    "Steady climbs! You treated stairs like background dancers."
  else if flights < 500 then
    "You and staircases? Basically on a first-name basis."
  else
    "All this cardio warrants skipping every single leg day"

/-- Embedding of `getBedtimeMessage` (page.tsx line 950).  The source guard is
`if (!bedtime)`, true for `undefined`/`null` and for the empty string. -/
def getBedtimeMessage : Option String → String
  | none => "Bedtime mystery unlocked soon."
  | some bedtime =>
    if bedtime = "" then "Bedtime mystery unlocked soon."
    else if "23:00" < bedtime then
      "Night owl confirmed—you love the late-night vibes."
    else
      "Pretty tidy bedtime. Your circadian rhythm approves."

/-- Embedding of `getWakeMessage` (page.tsx line 957).  The source guard is
`if (!waketime)`, true for `undefined`/`null` and for the empty string. -/
def getWakeMessage : Option String → String
  | none => "Wake time? Still buffering."
  | some waketime =>
    if waketime = "" then "Wake time? Still buffering."
    else if waketime < "07:00" then
      "Early bird energy—you probably saw a few sunrises."
    else
      "You vibe with the snooze button and we\x27re here for it."

/-- Embedding of `getRestlessNightMessage` (page.tsx line 964).  The source guard is
`if (!awakeningCount)`, true for `undefined`/`null` and for `0`. -/
def getRestlessNightMessage : Option ℚ → String
  | none => "Quite the restless night!"
  | some awakeningCount =>
    if awakeningCount = 0 then "Quite the restless night!"
    else if awakeningCount > 10 then "Quite the restless night!"
    else "A few tosses and turns, but you made it through."

/-- Embedding of `getLongestSleepMessage` (page.tsx line 970).  The source guard is
`if (!hours)`, true for `undefined`/`null` and for `0`. -/
def getLongestSleepMessage : Option ℚ → String
  | none => "Quite the slumber."
  | some hours =>
    if hours = 0 then "Quite the slumber."
    else if hours ≥ 12 then "Quite the slumber—did you awaken in another era?"
    else "Big slumber time"

/-- Embedding of `getShortestSleepMessage` (page.tsx line 977).  The source guard is
`if (!hours)`, true for `undefined`/`null` and for `0`. -/
def getShortestSleepMessage : Option ℚ → String
  | none => "Power nap vibes."
  | some hours =>
    if hours = 0 then "Power nap vibes."
    else if hours ≤ 3 then "Basically a blink LOL"
    else "Blink and you missed that night."

/-- Embedding of `getRunCountMessage` (page.tsx line 983). -/
def getRunCountMessage (runs : ℚ) : String :=
  if runs = 0 then
    "Your running shoes are in mint condition. Maybe too mint."
  else if runs < 20 then "Quality over quantity I suppose."
  else if runs < 60 then "Steady rhythm. Those playlists got some mileage."
  else "You basically lived on the leaderboard."

/-- Embedding of `getLongestRunMessage` (page.tsx line 992). -/
def getLongestRunMessage (km : ℚ) : String :=
  if km ≥ 30 then "Marathon-core unlocked. That’s an epic long run."
  else if km ≥ 15 then
    "Long enough to cross a couple neighborhoods with bragging rights."
  else "Bent the corner."

/-- Embedding of `getFastestPaceMessage` (page.tsx line 999).  The source guard is
`if (!pace)`, true for `null`/`undefined` and for `0`. -/
def getFastestPaceMessage : Option ℚ → String
  | none => "Pace radar couldn’t lock on—mysterious speed!"
  | some pace =>
    if pace = 0 then "Pace radar couldn’t lock on—mysterious speed!"
    else if pace < 4 then "Blazing. You left even the data catching its breath."
    else if pace < 5.5 then "Swift and smooth—you floated through those runs."
    else "Vibez and cardio."

/-- Embedding of `getRunDistanceMessage` (page.tsx line 1006). -/
def getRunDistanceMessage (km : ℚ) : String :=
  if km ≥ 500 then "That\x27s a legit tour of the map. Passport stamps pending."
  else if km ≥ 200 then "Hundreds of kilometers, countless playlists finished."
  else "Every kilometer counts."

/-- Embedding of `getExerciseMinutesMessage` (page.tsx line 1013). -/
def getExerciseMinutesMessage (minutes : ℚ) : String :=
  if minutes ≥ 2000 then "Time is muscle—you basically lived in workout mode."
  else if minutes ≥ 1000 then "Hours kept stackin."
  else "Every minute mattered. Warm-up phase complete."

/-- Embedding of `getCaloriesBurnedMessage` (page.tsx line 1020). -/
def getCaloriesBurnedMessage (calories : ℚ) : String :=
  if calories ≥ 100000 then "That’s enough energy to light up the block."
  else if calories ≥ 50000 then "Plenty of sweat equity invested this year."
  else "A solid burn to get started."

/-- Embedding of `getStandHoursMessage` (page.tsx line 1028). -/
def getStandHoursMessage (hours : ℚ) : String :=
  if hours ≥ 500 then "CHAIRS EXIST BRO"
  else if hours ≥ 300 then
    "You logged serious stand hours; the chair missed you."
  else "Baby steps toward less sitting. Keep it up."

/-- The `"high" | "avg"` discriminator of `getWorkoutBPMMessage`. -/
inductive BPMKind where
  | high
  | avg
deriving DecidableEq

/-- Embedding of `getWorkoutBPMMessage` (page.tsx line 1035). -/
def getWorkoutBPMMessage (value : ℚ) (kind : BPMKind) : String :=
  match kind with
  | .high =>
    if value ≥ 190 then "We hittin heart till failure or what"
    else if value ≥ 160 then "You pushed into the spicy zone whenever it mattered."
    else "A composed high—power with control."
  | .avg =>
    if value ≥ 150 then "Your baseline intensity is pretty fiery."
    else if value ≥ 120 then "Smooth operator"
    else "Chill sessions. Maybe next season gets a remix?"

/-- Embedding of `getAvgWorkoutTimeMessage` (page.tsx line 1047). -/
def getAvgWorkoutTimeMessage (minutes : ℚ) : String :=
  if minutes ≥ 60 then "Sessions long enough to count as mini-epics."
  else if minutes ≥ 30 then "Perfectly portioned workouts."
  else "Quick hits, maximum efficiency. HIIT energy."

/-- Embedding of `getAvgCaloriesPerWorkoutMessage` (page.tsx line 1053). -/
def getAvgCaloriesPerWorkoutMessage (calories : ℚ) : String :=
  if calories ≥ 600 then "Every workout was a blockbuster burn."
  else if calories ≥ 350 then "A consistent burn that kept stacking up."
  else "Light and breezy."

/-! ### Monthly chart transforms (src/page.tsx lines 778-834 and 840-907)

The month→value mappings arrive as JavaScript objects.  Their keys may be
carried as numbers (the TypeScript index signature is
`{ [key: number]: number }`) or as strings (as produced by `JSON.parse`),
and the source reads them with the double lookup
`(obj as any)[idx] ?? (obj as any)[String(idx)] ?? 0`.  A key is therefore
modelled as either a number or a string, and the two indexing forms of the
source are modelled as lookups under the corresponding key form. -/

/-- A property key of a JavaScript object: a number or a string. -/
inductive JsKey where
  | num (n : ℕ)
  | str (s : String)
deriving DecidableEq

/-- A JavaScript object with numeric values, as a finite association of
property keys to numbers. -/
abbrev JsObj := List (JsKey × ℚ)

/-- Indexing `o[n]` with a number `n`: the value of the first entry whose
key is the number `n`, if any. -/
def jsIndexNum (o : JsObj) (n : ℕ) : Option ℚ :=
  (o.find? fun p => p.1 = JsKey.num n).map (·.2)

/-- Indexing `o[s]` with a string `s`: the value of the first entry whose
key is the string `s`, if any. -/
def jsIndexStr (o : JsObj) (s : String) : Option ℚ :=
  (o.find? fun p => p.1 = JsKey.str s).map (·.2)

/-- The `months` array shared by both chart components (page.tsx
lines 781-794 and 847-860). -/
def months : List String :=
  ["Jan", "Feb", "Mar", "Apr", "May", "Jun",
   "Jul", "Aug", "Sep", "Oct", "Nov", "Dec"]

/-- The per-month value computed by both chart components (page.tsx
lines 798-799 and 864-865):
`(obj as any)[idx] ?? (obj as any)[String(idx)] ?? 0`. -/
def chartMonthValue (o : JsObj) (idx : ℕ) : ℚ :=
  ((jsIndexNum o idx).orElse fun _ => jsIndexStr o (toString idx)).getD 0

/-- The `data` array built by `MonthlyStepsChart` (page.tsx lines 796-801):
`months.map((m, i) => { const idx = i + 1; ... return { name: m, steps: val } })`.
The `steps` prop of the component is optional and is defaulted with
`steps ?? {}` (line 779). -/
def monthlyStepsChartData (steps : Option JsObj) : List (String × ℚ) :=
  let safeSteps := steps.getD []
  months.enum.map fun p => (p.2, chartMonthValue safeSteps (p.1 + 1))

/-- The `data` array built by `WorkoutTimelineChart` (page.tsx
lines 862-867), identical in shape to the steps chart; the `workouts`
prop is defaulted with `workouts ?? {}` (line 845). -/
def workoutTimelineChartData (workouts : Option JsObj) : List (String × ℚ) :=
  let safeWorkouts := workouts.getD []
  months.enum.map fun p => (p.2, chartMonthValue safeWorkouts (p.1 + 1))

/-- A month→value mapping whose keys are carried as numbers. -/
def numKeyed (m : List (ℕ × ℚ)) : JsObj :=
  m.map fun p => (JsKey.num p.1, p.2)

/-- A month→value mapping whose keys are carried as strings. -/
def strKeyed (m : List (String × ℚ)) : JsObj :=
  m.map fun p => (JsKey.str p.1, p.2)

/-- The value a number-keyed mapping associates to month `k`, if any. -/
def mapLookup (m : List (ℕ × ℚ)) (k : ℕ) : Option ℚ :=
  (m.find? fun p => p.1 = k).map (·.2)

/-- A month→value mapping written with string keys, as produced by
`JSON.parse` of an object literal with numeric labels: each numeric key is
carried as its decimal string form. -/
def strForm (m : List (ℕ × ℚ)) : List (String × ℚ) :=
  m.map fun p => (toString p.1, p.2)

/-! ### The WrappedData snapshot (src/page.tsx lines 18-53) -/

/-- A nested sleep record: `{ duration_hours: number; date_woke: string }`. -/
structure SleepNight where
  duration_hours : ℚ
  date_woke : String
deriving DecidableEq

/-- The nested record `{ awakening_count: number; date_woke: string }`. -/
structure WokenNight where
  awakening_count : ℚ
  date_woke : String
deriving DecidableEq

/-- The `WrappedData` interface (page.tsx lines 18-53).  `run_distances`
is typed `number[]` but the component guards it with `?? []` (line 73),
so it is modelled as optional; `fastest_pace_min_per_km` is typed
`number | null` and `shortest_sleep_night` is an optional field. -/
structure WrappedData where
  steps_total : ℚ
  distance_total_km : ℚ
  flights_total : ℚ
  total_runs : ℚ
  longest_run_km : ℚ
  fastest_pace_min_per_km : Option ℚ
  run_distances : Option (List ℚ)
  resting_hr_avg : ℚ
  workout_hr_avg : ℚ
  workouts_count : ℚ
  highest_workout_bpm : ℚ
  avg_workout_bpm : ℚ
  avg_workout_time_min : ℚ
  avg_calories_per_workout : ℚ
  total_workout_calories : ℚ
  most_calories_burned_day : String
  most_calories_burned_value : ℚ
  move_total : ℚ
  exercise_total : ℚ
  stand_total : ℚ
  steps_monthly : JsObj
  workouts_monthly : JsObj
  wrapped_year : ℚ
  total_net_sleep_hours : ℚ
  total_nights_with_data : ℚ
  avg_sleep_per_night : ℚ
  avg_bedtime : String
  avg_waketime : String
  longest_sleep_night : SleepNight
  most_woken_night : WokenNight
  shortest_sleep_night : Option SleepNight
deriving DecidableEq

/-! ### The fetch lifecycle of the Home component (src/page.tsx lines 55-71)

`Home` holds one piece of state, `data`, initialised to `null` by
`useState<WrappedData | null>(null)`.  Its single `useEffect` has an
empty dependency array, so React runs it exactly once, at mount; the
effect issues one GET request and the continuation either stores the
parsed body with `setData` or logs the error with
`console.error("Failed to fetch wrapped data:", error)`.  Rendering is a
pure function of `data`: while `data` is `null` the component returns the
"Loading your Wrapped…" view, otherwise the slide sequence over the
loaded snapshot. -/

/-- The initial `useState` value (page.tsx line 56). -/
def initialHomeState : Option WrappedData := none

/-- The text of the loading view (page.tsx line 68). -/
def loadingText : String := "Loading your Wrapped…"

/-- What `Home` renders, as a function of its `data` state
(page.tsx lines 65-393): the loading view, or the slides over the
snapshot. -/
inductive HomeView where
  | loading
  | wrapped (d : WrappedData)
deriving DecidableEq

/-- The render function of `Home`: pure in the `data` state. -/
def renderHome : Option WrappedData → HomeView
  | none => HomeView.loading
  | some d => HomeView.wrapped d

/-- The dependency array of the single `useEffect` of `Home`
(page.tsx line 63): empty. -/
def homeEffectDeps : List String := []

/-- The requests issued by the body of that effect (page.tsx line 59):
one GET to the fixed endpoint. -/
def homeEffectRequests : List String := ["http://127.0.0.1:8000/wrapped"]

/-- How many times the body of the effect runs during a page load with
`rerenders` re-renders after mount: React runs an effect with an empty
dependency list only at mount, and re-runs it on a re-render otherwise. -/
def homeEffectRunsPerLoad (rerenders : ℕ) : ℕ :=
  if homeEffectDeps.isEmpty then 1 else 1 + rerenders

/-- The requests issued during a whole page load. -/
def homeFetchesPerLoad (rerenders : ℕ) : ℕ :=
  homeEffectRunsPerLoad rerenders * homeEffectRequests.length

/-- An event the mounted page can observe: the single fetch resolving
(successfully or not), or a re-render with no state change. -/
inductive HomeEvent where
  | fetchSuccess (w : WrappedData)
  | fetchFailure (e : String)
  | rerender

/-- Whether an event is the resolution of a fetch. -/
def HomeEvent.isFetch : HomeEvent → Bool
  | .fetchSuccess _ => true
  | .fetchFailure _ => true
  | .rerender => false

/-- The state transition of `Home` (page.tsx lines 60-62): a successful
fetch stores the parsed body via `setData`; a failed fetch leaves the
state unchanged; a re-render changes nothing. -/
def homeUpdate (s : Option WrappedData) : HomeEvent → Option WrappedData
  | .fetchSuccess w => some w
  | .fetchFailure _ => s
  | .rerender => s

/-- The console output of an event (page.tsx line 62): a failed fetch
logs `console.error("Failed to fetch wrapped data:", error)`. -/
def homeLog : HomeEvent → List (String × String)
  | .fetchFailure e => [("Failed to fetch wrapped data:", e)]
  | _ => []

/-- Folding the state transition over a sequence of events. -/
def processEvents (s : Option WrappedData) (evs : List HomeEvent) :
    Option WrappedData :=
  evs.foldl homeUpdate s

/-! ### Rendered card values for the fallback claims -/

/-- The value string of the "Fastest Pace" run card (page.tsx line 290):
the template literal `${"${data.fastest_pace_min_per_km} min/km"}` has no
fallback, and JavaScript stringifies an interpolated `null` as "null".
`fmt` abstracts the stringification of a present number. -/
def fastestPaceCardValue (fmt : ℚ → String) (pace : Option ℚ) : String :=
  (match pace with
   | none => "null"
   | some v => fmt v) ++ " min/km"

/-- The note of the "Fastest Pace" run card (page.tsx line 291). -/
def fastestPaceCardNote (pace : Option ℚ) : String :=
  getFastestPaceMessage pace

/-- The stat of the Running tile of `FinalSummarySlide` (page.tsx
line 704): `fastestPace ? ${"`${fastestPace} min/km`"} : "—"`; the
conditional uses JavaScript truthiness, so `null`/`undefined` and `0`
both select the "—" placeholder. -/
def summaryRunningStat (fmt : ℚ → String) : Option ℚ → String
  | none => "—"
  | some v => if v = 0 then "—" else fmt v ++ " min/km"

/-- The value string of the "Shortest Sleep" card (page.tsx line 254):
`${"${data.shortest_sleep_night?.duration_hours ?? \"N/A\"} hrs"}`;
optional chaining on a missing record gives `undefined` and `??`
substitutes the literal "N/A". -/
def shortestSleepCardValue (fmt : ℚ → String) (night : Option SleepNight) : String :=
  (match night with
   | none => "N/A"
   | some r => fmt r.duration_hours) ++ " hrs"

/-- The note of the "Shortest Sleep" card (page.tsx line 255):
`getShortestSleepMessage(data.shortest_sleep_night?.duration_hours)`. -/
def shortestSleepCardNote (night : Option SleepNight) : String :=
  getShortestSleepMessage (night.map fun r => r.duration_hours)

/-- The sum `(data.run_distances ?? []).reduce((a, b) => a + b, 0)`
(page.tsx lines 73-74). -/
def sumRunDistances (rd : Option (List ℚ)) : ℚ :=
  (rd.getD []).foldl (fun a b => a + b) 0

/-- Embedding of `Number.prototype.toFixed(2)` on a nonnegative exact decimal: round
to the nearest hundredth, ties to the larger count, and print with two
decimal digits. -/
def toFixed2Nonneg (q : ℚ) : String :=
  let n : ℕ := (⌊q * 100 + 1 / 2⌋ : ℤ).toNat
  toString (n / 100) ++ "." ++ (if n % 100 < 10 then "0" else "") ++ toString (n % 100)

/-- Embedding of `Number.prototype.toFixed(2)`: a negative value is formatted as the
sign followed by the formatted absolute value. -/
def toFixed2 (q : ℚ) : String :=
  if q < 0 then "-" ++ toFixed2Nonneg (-q) else toFixed2Nonneg q

/-- Embedding of `totalRunDistance` (page.tsx lines 73-75): the sum of the run
distances, with `?? []` guarding a missing list, formatted with
`.toFixed(2)`. -/
def totalRunDistance (rd : Option (List ℚ)) : String :=
  toFixed2 (sumRunDistances rd)

/-- The value string of the "Distance in Runs" run card (page.tsx
line 295): `${"${totalRunDistance} km"}`. -/
def runDistanceCardValue (rd : Option (List ℚ)) : String :=
  totalRunDistance rd ++ " km"

/-- A concrete `WrappedData` snapshot, used to instantiate lifecycle
theorems. -/
def sampleWrappedData : WrappedData where
  steps_total := 600000
  distance_total_km := 1200
  flights_total := 250
  total_runs := 30
  longest_run_km := 18
  fastest_pace_min_per_km := none
  run_distances := none
  resting_hr_avg := 60
  workout_hr_avg := 140
  workouts_count := 80
  highest_workout_bpm := 185
  avg_workout_bpm := 130
  avg_workout_time_min := 45
  avg_calories_per_workout := 400
  total_workout_calories := 60000
  most_calories_burned_day := "2024-07-04"
  most_calories_burned_value := 1200
  move_total := 300000
  exercise_total := 1500
  stand_total := 350
  steps_monthly := [(JsKey.num 3, 500)]
  workouts_monthly := []
  wrapped_year := 2024
  total_net_sleep_hours := 2500
  total_nights_with_data := 300
  avg_sleep_per_night := 7
  avg_bedtime := "23:30"
  avg_waketime := "07:15"
  longest_sleep_night := ⟨11, "2024-02-10"⟩
  most_woken_night := ⟨12, "2024-06-01"⟩
  shortest_sleep_night := none

/-! ### Lookup and chart-transform lemmas -/

theorem jsIndexNum_numKeyed (m : List (ℕ × ℚ)) (n : ℕ) :
    jsIndexNum (numKeyed m) n = mapLookup m n := by
  induction m with
  | nil => rfl
  | cons p t ih =>
    by_cases h : p.1 = n
    · simp [jsIndexNum, numKeyed, mapLookup, h]
    · simp only [jsIndexNum, numKeyed, mapLookup] at ih ⊢
      simpa [List.find?, h] using ih

theorem jsIndexStr_numKeyed (m : List (ℕ × ℚ)) (s : String) :
    jsIndexStr (numKeyed m) s = none := by
  induction m with
  | nil => rfl
  | cons p t ih =>
    simp only [jsIndexStr, numKeyed] at ih ⊢
    simp [List.find?, ih]

theorem jsIndexNum_strKeyed (m : List (String × ℚ)) (n : ℕ) :
    jsIndexNum (strKeyed m) n = none := by
  induction m with
  | nil => rfl
  | cons p t ih =>
    simp only [jsIndexNum, strKeyed] at ih ⊢
    simp [List.find?, ih]

/-- Decimal string forms of distinct months are distinct. -/
theorem toString_inj_below_13 :
    ∀ a, a < 13 → ∀ b, b < 13 → (toString a = toString b ↔ a = b) := by decide

theorem jsIndexStr_strForm (m : List (ℕ × ℚ))
    (hm : ∀ p ∈ m, 1 ≤ p.1 ∧ p.1 ≤ 12) (k : ℕ) (hk : k ≤ 12) :
    jsIndexStr (strKeyed (strForm m)) (toString k) = mapLookup m k := by
  induction m with
  | nil => rfl
  | cons p t ih =>
    have hp := hm p (List.mem_cons_self p t)
    have ht : ∀ q ∈ t, 1 ≤ q.1 ∧ q.1 ≤ 12 := fun q hq => hm q (List.mem_cons_of_mem p hq)
    have hts : toString p.1 = toString k ↔ p.1 = k :=
      toString_inj_below_13 p.1 (by omega) k (by omega)
    by_cases h : p.1 = k
    · simp [jsIndexStr, strKeyed, strForm, mapLookup, List.find?, hts.mpr h, h]
    · have hne : ¬ toString p.1 = toString k := fun hc => h (hts.mp hc)
      simp only [jsIndexStr, strKeyed, strForm, mapLookup] at ih ⊢
      simpa [List.find?, h, hne] using ih ht

/-- The per-month value of a number-keyed mapping is the value held by the mapping,
or 0 when the month is absent. -/
theorem chartMonthValue_numKeyed (m : List (ℕ × ℚ)) (k : ℕ) :
    chartMonthValue (numKeyed m) k = (mapLookup m k).getD 0 := by
  unfold chartMonthValue
  rw [jsIndexNum_numKeyed, jsIndexStr_numKeyed]
  cases mapLookup m k <;> rfl

theorem chartMonthValue_strForm (m : List (ℕ × ℚ))
    (hm : ∀ p ∈ m, 1 ≤ p.1 ∧ p.1 ≤ 12) (k : ℕ) (hk : k ≤ 12) :
    chartMonthValue (strKeyed (strForm m)) k = (mapLookup m k).getD 0 := by
  unfold chartMonthValue
  rw [jsIndexNum_strKeyed, jsIndexStr_strForm m hm k hk]
  cases mapLookup m k <;> rfl

theorem monthlyStepsChartData_get? (o : JsObj) (i : ℕ) :
    (monthlyStepsChartData (some o)).get? i
      = (months.get? i).map fun name => (name, chartMonthValue o (i + 1)) := by
  match i with
  | 0 | 1 | 2 | 3 | 4 | 5 | 6 | 7 | 8 | 9 | 10 | 11 => rfl
  | n + 12 => rfl

theorem workoutTimelineChartData_get? (o : JsObj) (i : ℕ) :
    (workoutTimelineChartData (some o)).get? i
      = (months.get? i).map fun name => (name, chartMonthValue o (i + 1)) := by
  match i with
  | 0 | 1 | 2 | 3 | 4 | 5 | 6 | 7 | 8 | 9 | 10 | 11 => rfl
  | n + 12 => rfl

theorem processEvents_no_fetch (evs : List HomeEvent)
    (h : ∀ ev ∈ evs, ev.isFetch = false) (s : Option WrappedData) :
    processEvents s evs = s := by
  induction evs generalizing s with
  | nil => rfl
  | cons ev t ih =>
    have hev := h ev (List.mem_cons_self ev t)
    have ht : ∀ e ∈ t, e.isFetch = false := fun e he => h e (List.mem_cons_of_mem ev he)
    cases ev with
    | fetchSuccess w => simp [HomeEvent.isFetch] at hev
    | fetchFailure e => simpa [processEvents, homeUpdate] using ih ht s
    | rerender => simpa [processEvents, homeUpdate] using ih ht s

theorem processEvents_append (s : Option WrappedData)
    (l₁ l₂ : List HomeEvent) :
    processEvents s (l₁ ++ l₂) = processEvents (processEvents s l₁) l₂ :=
  List.foldl_append ..

/-!
### Claim C1: ordered thresholds of `getStepsMessage`
-/

/-- C1: for every number of steps, `getStepsMessage` returns exactly one of
four fixed strings selected by ordered threshold comparison
(`steps < 50000` gives the first, `< 200000` the second, `< 500000` the
third, otherwise the fourth), and at `steps_total = 600000` the message is
the "Holy moly" one. -/
theorem getStepsMessage_ordered_thresholds (steps : ℚ) :
    getStepsMessage steps ∈
      ["Whoa... did your sneakers go on vacation? Your couch definitely won this year.",
       "You kept things casual—enough movement to keep the playlists going, but room to roam.",
       "You were active! That many steps is basically a never-ending city stroll.",
       "Holy moly cuz... that\x27s alot of steps!"]
    ∧ (steps < 50000 →
        getStepsMessage steps =
          "Whoa... did your sneakers go on vacation? Your couch definitely won this year.")
    ∧ (¬ steps < 50000 → steps < 200000 →
        getStepsMessage steps =
          "You kept things casual—enough movement to keep the playlists going, but room to roam.")
    ∧ (¬ steps < 200000 → steps < 500000 →
        getStepsMessage steps =
          "You were active! That many steps is basically a never-ending city stroll.")
    ∧ (¬ steps < 500000 →
        getStepsMessage steps = "Holy moly cuz... that\x27s alot of steps!")
    ∧ getStepsMessage 600000 = "Holy moly cuz... that\x27s alot of steps!" := by
  refine ⟨?_, ?_, ?_, ?_, ?_, ?_⟩
  · unfold getStepsMessage; split_ifs <;> simp
  · intro h; simp [getStepsMessage, h]
  · intro h1 h2; simp [getStepsMessage, h1, h2]
  · intro h1 h2
    have h0 : ¬ steps < 50000 := fun h => h1 (h.trans (by norm_num))
    simp [getStepsMessage, h0, h1, h2]
  · intro h1
    have h2 : ¬ steps < 200000 := fun h => h1 (h.trans (by norm_num))
    have h0 : ¬ steps < 50000 := fun h => h2 (h.trans (by norm_num))
    simp [getStepsMessage, h0, h1, h2]
  · norm_num [getStepsMessage]

/-- Witness for C1: the theorem applied at 30000, 100000, 300000 and
600000 steps, discharging each threshold hypothesis. -/
theorem getStepsMessage_ordered_thresholds_witness :
    getStepsMessage 30000 =
      "Whoa... did your sneakers go on vacation? Your couch definitely won this year."
    ∧ getStepsMessage 100000 =
      "You kept things casual—enough movement to keep the playlists going, but room to roam."
    ∧ getStepsMessage 300000 =
      "You were active! That many steps is basically a never-ending city stroll."
    ∧ getStepsMessage 600000 = "Holy moly cuz... that\x27s alot of steps!" :=
  ⟨(getStepsMessage_ordered_thresholds 30000).2.1 (by norm_num),
   (getStepsMessage_ordered_thresholds 100000).2.2.1 (by norm_num) (by norm_num),
   (getStepsMessage_ordered_thresholds 300000).2.2.2.1 (by norm_num) (by norm_num),
   (getStepsMessage_ordered_thresholds 600000).2.2.2.2.1 (by norm_num)⟩

/-!
### Claim C3: every message selector is total with a small fixed output set
-/

/-- C3: every message-selector function is a pure total Lean function
(hence deterministic and side-effect free); each returns a member of its
small fixed set of output strings on every input, and each selector with
an optional parameter returns its defined fallback string on a missing
(`none`, i.e. `null`/`undefined`) input. -/
theorem message_selectors_total_fixed_outputs :
    (∀ x : ℚ, getStepsMessage x ∈
      ["Whoa... did your sneakers go on vacation? Your couch definitely won this year.",
       "You kept things casual—enough movement to keep the playlists going, but room to roam.",
       "You were active! That many steps is basically a never-ending city stroll.",
       "Holy moly cuz... that\x27s alot of steps!"])
    ∧ (∀ x : ℚ, getDistanceMessage x ∈
      ["That\x27s like walking from Toronto to Minnesota!",
       "You covered enough ground to stretch across a couple of countries.",
       "Solid grind: that’s a full-on road trip completed one stride at a time.",
       "Every kilometer counts—keep stacking them and the map won’t keep up."])
    ∧ (∀ x : ℚ, getFlightsMessage x ∈
      ["Elevators only? No judgement, but even your smartwatch is side-eyeing you.",
       "Steady climbs! You treated stairs like background dancers.",
       "You and staircases? Basically on a first-name basis.",
       "All this cardio warrants skipping every single leg day"])
    ∧ (∀ x : Option String, getBedtimeMessage x ∈
      ["Bedtime mystery unlocked soon.",
       "Night owl confirmed—you love the late-night vibes.",
       "Pretty tidy bedtime. Your circadian rhythm approves."])
    ∧ getBedtimeMessage none = "Bedtime mystery unlocked soon."
    ∧ (∀ x : Option String, getWakeMessage x ∈
      ["Wake time? Still buffering.",
       "Early bird energy—you probably saw a few sunrises.",
       "You vibe with the snooze button and we\x27re here for it."])
    ∧ getWakeMessage none = "Wake time? Still buffering."
    ∧ (∀ x : Option ℚ, getRestlessNightMessage x ∈
      ["Quite the restless night!",
       "A few tosses and turns, but you made it through."])
    ∧ getRestlessNightMessage none = "Quite the restless night!"
    ∧ (∀ x : Option ℚ, getLongestSleepMessage x ∈
      ["Quite the slumber.",
       "Quite the slumber—did you awaken in another era?",
       "Big slumber time"])
    ∧ getLongestSleepMessage none = "Quite the slumber."
    ∧ (∀ x : Option ℚ, getShortestSleepMessage x ∈
      ["Power nap vibes.",
       "Basically a blink LOL",
       "Blink and you missed that night."])
    ∧ getShortestSleepMessage none = "Power nap vibes."
    ∧ (∀ x : ℚ, getRunCountMessage x ∈
      ["Your running shoes are in mint condition. Maybe too mint.",
       "Quality over quantity I suppose.",
       "Steady rhythm. Those playlists got some mileage.",
       "You basically lived on the leaderboard."])
    ∧ (∀ x : ℚ, getLongestRunMessage x ∈
      ["Marathon-core unlocked. That’s an epic long run.",
       "Long enough to cross a couple neighborhoods with bragging rights.",
       "Bent the corner."])
    ∧ (∀ x : Option ℚ, getFastestPaceMessage x ∈
      ["Pace radar couldn’t lock on—mysterious speed!",
       "Blazing. You left even the data catching its breath.",
       "Swift and smooth—you floated through those runs.",
       "Vibez and cardio."])
    ∧ getFastestPaceMessage none = "Pace radar couldn’t lock on—mysterious speed!"
    ∧ (∀ x : ℚ, getRunDistanceMessage x ∈
      ["That\x27s a legit tour of the map. Passport stamps pending.",
       "Hundreds of kilometers, countless playlists finished.",
       "Every kilometer counts."])
    ∧ (∀ x : ℚ, getExerciseMinutesMessage x ∈
      ["Time is muscle—you basically lived in workout mode.",
       "Hours kept stackin.",
       "Every minute mattered. Warm-up phase complete."])
    ∧ (∀ x : ℚ, getCaloriesBurnedMessage x ∈
      ["That’s enough energy to light up the block.",
       "Plenty of sweat equity invested this year.",
       "A solid burn to get started."])
    ∧ (∀ x : ℚ, getStandHoursMessage x ∈
      ["CHAIRS EXIST BRO",
       "You logged serious stand hours; the chair missed you.",
       "Baby steps toward less sitting. Keep it up."])
    ∧ (∀ (x : ℚ) (k : BPMKind), getWorkoutBPMMessage x k ∈
      ["We hittin heart till failure or what",
       "You pushed into the spicy zone whenever it mattered.",
       "A composed high—power with control.",
       "Your baseline intensity is pretty fiery.",
       "Smooth operator",
       "Chill sessions. Maybe next season gets a remix?"])
    ∧ (∀ x : ℚ, getAvgWorkoutTimeMessage x ∈
      ["Sessions long enough to count as mini-epics.",
       "Perfectly portioned workouts.",
       "Quick hits, maximum efficiency. HIIT energy."])
    ∧ (∀ x : ℚ, getAvgCaloriesPerWorkoutMessage x ∈
      ["Every workout was a blockbuster burn.",
       "A consistent burn that kept stacking up.",
       "Light and breezy."]) := by
  refine ⟨?_, ?_, ?_, ?_, rfl, ?_, rfl, ?_, rfl, ?_, rfl, ?_, rfl, ?_, ?_, ?_, rfl,
    ?_, ?_, ?_, ?_, ?_, ?_, ?_⟩
  · intro x; unfold getStepsMessage; split_ifs <;> simp
  · intro x; unfold getDistanceMessage; split_ifs <;> simp
  · intro x; unfold getFlightsMessage; split_ifs <;> simp
  · rintro (_ | b)
    · simp [getBedtimeMessage]
    · simp only [ getBedtimeMessage]; split_ifs <;> simp
  · rintro (_ | b)
    · simp [getWakeMessage]
    · simp only [ getWakeMessage]; split_ifs <;> simp
  · rintro (_ | v)
    · simp [getRestlessNightMessage]
    · simp only [ getRestlessNightMessage]; split_ifs <;> simp
  · rintro (_ | v)
    · simp [getLongestSleepMessage]
    · simp only [ getLongestSleepMessage]; split_ifs <;> simp
  · rintro (_ | v)
    · simp [getShortestSleepMessage]
    · simp only [ getShortestSleepMessage]; split_ifs <;> simp
  · intro x; unfold getRunCountMessage; split_ifs <;> simp
  · intro x; unfold getLongestRunMessage; split_ifs <;> simp
  · rintro (_ | v)
    · simp [getFastestPaceMessage]
    · simp only [ getFastestPaceMessage]; split_ifs <;> simp
  · intro x; unfold getRunDistanceMessage; split_ifs <;> simp
  · intro x; unfold getExerciseMinutesMessage; split_ifs <;> simp
  · intro x; unfold getCaloriesBurnedMessage; split_ifs <;> simp
  · intro x; unfold getStandHoursMessage; split_ifs <;> simp
  · rintro x (_ | _) <;> unfold getWorkoutBPMMessage <;> dsimp only <;> split_ifs <;> simp
  · intro x; unfold getAvgWorkoutTimeMessage; split_ifs <;> simp
  · intro x; unfold getAvgCaloriesPerWorkoutMessage; split_ifs <;> simp

/-!
### Claim C2: the chart transforms produce a 12-entry Jan..Dec sequence
-/

/-- C2: for every partial month→value mapping, the chart transforms of
`MonthlyStepsChart` and `WorkoutTimelineChart` produce a 12-entry ordered
sequence in which month `k` of the mapping appears at index `k - 1` and
every absent month has value 0; in particular the mapping `{3: 500}`
yields 500 at index 2 (March) and 0 at all other indices. -/
theorem chart_transform_twelve_months (m : List (ℕ × ℚ)) (k : ℕ)
    (hk1 : 1 ≤ k) (hk2 : k ≤ 12) :
    (monthlyStepsChartData (some (numKeyed m))).length = 12
    ∧ (workoutTimelineChartData (some (numKeyed m))).length = 12
    ∧ (monthlyStepsChartData (some (numKeyed m))).map Prod.fst = months
    ∧ (workoutTimelineChartData (some (numKeyed m))).map Prod.fst = months
    ∧ ((monthlyStepsChartData (some (numKeyed m))).get? (k - 1)).map Prod.snd
        = some ((mapLookup m k).getD 0)
    ∧ ((workoutTimelineChartData (some (numKeyed m))).get? (k - 1)).map Prod.snd
        = some ((mapLookup m k).getD 0)
    ∧ (monthlyStepsChartData (some (numKeyed [(3, 500)]))).map Prod.snd
        = [0, 0, 500, 0, 0, 0, 0, 0, 0, 0, 0, 0] := by
  refine ⟨rfl, rfl, rfl, rfl, ?_, ?_, ?_⟩
  · interval_cases k <;>
      · rw [monthlyStepsChartData_get?]
        simp [months, chartMonthValue_numKeyed]
  · interval_cases k <;>
      · rw [workoutTimelineChartData_get?]
        simp [months, chartMonthValue_numKeyed]
  · rfl

/-- Witness for C2: the theorem applied to the mapping `{3: 500}` at
month 3, discharging both range hypotheses. -/
theorem chart_transform_twelve_months_witness :
    ((monthlyStepsChartData (some (numKeyed [(3, 500)]))).get? 2).map Prod.snd
      = some 500
    ∧ ((workoutTimelineChartData (some (numKeyed [(3, 500)]))).get? 2).map Prod.snd
      = some 500 := by
  have h := chart_transform_twelve_months [(3, 500)] 3 (by norm_num) (by norm_num)
  refine ⟨?_, ?_⟩
  · simpa [mapLookup, List.find?] using h.2.2.2.2.1
  · simpa [mapLookup, List.find?] using h.2.2.2.2.2.1

/-!
### Claim C9: numeric-key lookup first, then the string form of the key
-/

/-- C9: the chart transforms look a month up first under the numeric key
and then under the string form of that key, so a string-keyed mapping
(e.g. `{"3": 500}`) produces the same 12-entry sequence as the equivalent
numeric-keyed mapping, and 0 is used only when neither key is present. -/
theorem chart_lookup_numeric_then_string (m : List (ℕ × ℚ))
    (hm : ∀ p ∈ m, 1 ≤ p.1 ∧ p.1 ≤ 12) :
    monthlyStepsChartData (some (strKeyed (strForm m)))
      = monthlyStepsChartData (some (numKeyed m))
    ∧ workoutTimelineChartData (some (strKeyed (strForm m)))
      = workoutTimelineChartData (some (numKeyed m))
    ∧ (∀ (o : JsObj) (k : ℕ) (v : ℚ),
        jsIndexNum o k = some v → chartMonthValue o k = v)
    ∧ (∀ (o : JsObj) (k : ℕ) (v : ℚ), jsIndexNum o k = none →
        jsIndexStr o (toString k) = some v → chartMonthValue o k = v)
    ∧ (∀ (o : JsObj) (k : ℕ), jsIndexNum o k = none →
        jsIndexStr o (toString k) = none → chartMonthValue o k = 0) := by
  have hval : ∀ i : ℕ, i < 12 →
      chartMonthValue (strKeyed (strForm m)) (i + 1)
        = chartMonthValue (numKeyed m) (i + 1) := by
    intro i hi
    rw [chartMonthValue_numKeyed, chartMonthValue_strForm m hm (i + 1) (by omega)]
  refine ⟨?_, ?_, ?_, ?_, ?_⟩
  · apply List.ext_get?
    intro i
    rw [monthlyStepsChartData_get?, monthlyStepsChartData_get?]
    by_cases hi : i < 12
    · rw [hval i hi]
    · have : months.get? i = none := List.get?_eq_none.mpr (by simp [months]; omega)
      rw [this]; rfl
  · apply List.ext_get?
    intro i
    rw [workoutTimelineChartData_get?, workoutTimelineChartData_get?]
    by_cases hi : i < 12
    · rw [hval i hi]
    · have : months.get? i = none := List.get?_eq_none.mpr (by simp [months]; omega)
      rw [this]; rfl
  · intro o k v h
    simp [chartMonthValue, h, Option.orElse]
  · intro o k v h1 h2
    simp [chartMonthValue, h1, h2, Option.orElse]
  · intro o k h1 h2
    simp [chartMonthValue, h1, h2, Option.orElse]

/-- Witness for C9: the theorem applied to the mapping `{3: 500}`,
discharging the month-range hypothesis; the string-keyed form `{"3": 500}`
yields the same chart data as the numeric-keyed form. -/
theorem chart_lookup_numeric_then_string_witness :
    monthlyStepsChartData (some [(JsKey.str "3", 500)])
      = monthlyStepsChartData (some [(JsKey.num 3, 500)])
    ∧ workoutTimelineChartData (some [(JsKey.str "3", 500)])
      = workoutTimelineChartData (some [(JsKey.num 3, 500)]) := by
  have h := chart_lookup_numeric_then_string [(3, 500)]
    (by intro p hp; simp at hp; simp [hp])
  exact ⟨h.1, h.2.1⟩

/-!
### Claim C8: a value of 0 is treated like a missing value by the optional
numeric selectors
-/

/-- C8: for the optional-numeric selectors, an input equal to 0 yields the
same fallback string as a missing (`null`/`undefined`) input — because the
source guards use JavaScript truthiness (`!x`), and `!0` is true — and not
the string of the lowest threshold bucket for present values. -/
theorem optional_selectors_zero_is_fallback :
    getRestlessNightMessage (some 0) = getRestlessNightMessage none
    ∧ getRestlessNightMessage (some 0) = "Quite the restless night!"
    ∧ getRestlessNightMessage (some 0) ≠
        "A few tosses and turns, but you made it through."
    ∧ getLongestSleepMessage (some 0) = getLongestSleepMessage none
    ∧ getLongestSleepMessage (some 0) = "Quite the slumber."
    ∧ getLongestSleepMessage (some 0) ≠ "Big slumber time"
    ∧ getShortestSleepMessage (some 0) = getShortestSleepMessage none
    ∧ getShortestSleepMessage (some 0) = "Power nap vibes."
    ∧ getShortestSleepMessage (some 0) ≠ "Basically a blink LOL"
    ∧ getFastestPaceMessage (some 0) = getFastestPaceMessage none
    ∧ getFastestPaceMessage (some 0) = "Pace radar couldn’t lock on—mysterious speed!"
    ∧ getFastestPaceMessage (some 0) ≠
        "Blazing. You left even the data catching its breath." := by
  refine ⟨?_, ?_, ?_, ?_, ?_, ?_, ?_, ?_, ?_, ?_, ?_, ?_⟩ <;>
    simp only [getRestlessNightMessage, getLongestSleepMessage,
      getShortestSleepMessage, getFastestPaceMessage, if_pos rfl, ne_eq] <;>
    decide

/-!
### Claim C4: rendering of an absent `fastest_pace_min_per_km`
-/

/-- C4 counterexample: with `fastest_pace_min_per_km` null, the Fastest
value of the Fastest Pace run card is the string "null min/km" — the interpolated
`null` — and not a fallback placeholder such as the "—" that the final
Running tile of the final summary uses, nor "N/A". -/
theorem fastestPace_card_renders_null :
    fastestPaceCardValue (fun _ => "") none = "null min/km"
    ∧ fastestPaceCardValue (fun _ => "") none ≠ "— min/km"
    ∧ fastestPaceCardValue (fun _ => "") none ≠ "—"
    ∧ fastestPaceCardValue (fun _ => "") none ≠ "N/A min/km"
    ∧ fastestPaceCardValue (fun _ => "") none ≠ summaryRunningStat (fun _ => "") none :=
  ⟨rfl, by decide, by decide, by decide, by decide⟩

/-- C4 amended: with `fastest_pace_min_per_km` null, the Running tile of
the final summary renders the placeholder "—" and the note of the Fastest
Pace card renders the fallback message of the selector, but the value of
the Fastest Pace card interpolates the null directly, rendering "null min/km". -/
theorem fastestPace_absent_rendering (fmt : ℚ → String) :
    summaryRunningStat fmt none = "—"
    ∧ fastestPaceCardNote none = "Pace radar couldn’t lock on—mysterious speed!"
    ∧ fastestPaceCardValue fmt none = "null min/km" :=
  ⟨rfl, rfl, rfl⟩

/-!
### Claim C5: a failed fetch is caught, logged, and leaves the page in
the loading state
-/

/-- C5: the loading view is rendered before the fetch resolves; a fetch
failure is caught (the state transition is total), logged via
`console.error("Failed to fetch wrapped data:", error)`, leaves the state
`null`, and every later fetch-free step still renders the
"Loading your Wrapped…" view — there is no retry and no user-facing
error view. -/
theorem fetch_failure_stays_loading (e : String) (post : List HomeEvent)
    (hpost : ∀ ev ∈ post, ev.isFetch = false) :
    renderHome initialHomeState = HomeView.loading
    ∧ loadingText = "Loading your Wrapped…"
    ∧ homeUpdate initialHomeState (.fetchFailure e) = initialHomeState
    ∧ homeLog (.fetchFailure e) = [("Failed to fetch wrapped data:", e)]
    ∧ processEvents (homeUpdate initialHomeState (.fetchFailure e)) post
        = initialHomeState
    ∧ renderHome (processEvents (homeUpdate initialHomeState (.fetchFailure e)) post)
        = HomeView.loading := by
  refine ⟨rfl, rfl, rfl, rfl, ?_, ?_⟩
  · exact processEvents_no_fetch post hpost initialHomeState
  · rw [processEvents_no_fetch post hpost]
    rfl

/-- Witness for C5: the theorem applied to a concrete network error
followed by one re-render. -/
theorem fetch_failure_stays_loading_witness :
    processEvents (homeUpdate initialHomeState (.fetchFailure "network error"))
        [HomeEvent.rerender] = initialHomeState
    ∧ renderHome
        (processEvents (homeUpdate initialHomeState (.fetchFailure "network error"))
          [HomeEvent.rerender]) = HomeView.loading := by
  have h := fetch_failure_stays_loading "network error" [HomeEvent.rerender]
    (by intro ev hev; simp at hev; subst hev; rfl)
  exact ⟨h.2.2.2.2.1, h.2.2.2.2.2⟩

/-!
### Claim C6: a missing `shortest_sleep_night` renders "N/A" and the
fallback note
-/

/-- C6: when `shortest_sleep_night` is undefined, the Shortest Sleep card
renders the literal fallback "N/A" in the duration slot (value
"N/A hrs") and the fallback string of the selector note; both renderers are
total functions, so no exception is thrown. -/
theorem shortest_sleep_missing_renders_fallback (fmt : ℚ → String) :
    shortestSleepCardValue fmt none = "N/A hrs"
    ∧ shortestSleepCardNote none = "Power nap vibes." :=
  ⟨rfl, rfl⟩

/-!
### Claim C7: the snapshot is fetched once and never mutated
-/

/-- C7: `Home` issues a single GET to the fixed endpoint per page load
(its one effect has an empty dependency array, so it runs only at
mount), and once the state holds the parsed snapshot every later
fetch-free step leaves it unchanged, so every subsequent render reads
the same snapshot. -/
theorem snapshot_fetched_once_never_mutated (w : WrappedData)
    (pre post : List HomeEvent) (rerenders : ℕ)
    (hpost : ∀ ev ∈ post, ev.isFetch = false) :
    homeFetchesPerLoad rerenders = 1
    ∧ homeEffectRequests = ["http://127.0.0.1:8000/wrapped"]
    ∧ processEvents initialHomeState (pre ++ HomeEvent.fetchSuccess w :: post)
        = some w
    ∧ renderHome (processEvents initialHomeState (pre ++ HomeEvent.fetchSuccess w :: post))
        = HomeView.wrapped w := by
  have hmain : processEvents initialHomeState (pre ++ HomeEvent.fetchSuccess w :: post)
      = some w := by
    rw [processEvents_append]
    exact processEvents_no_fetch post hpost (some w)
  refine ⟨rfl, rfl, hmain, ?_⟩
  rw [hmain]
  rfl

/-- Witness for C7: the theorem applied to a concrete snapshot, an empty
prefix, one trailing re-render and five re-renders of the page. -/
theorem snapshot_fetched_once_never_mutated_witness :
    homeFetchesPerLoad 5 = 1
    ∧ processEvents initialHomeState
        ([] ++ HomeEvent.fetchSuccess sampleWrappedData :: [HomeEvent.rerender])
        = some sampleWrappedData := by
  have h := snapshot_fetched_once_never_mutated sampleWrappedData [] [HomeEvent.rerender] 5
    (by intro ev hev; simp at hev; subst hev; rfl)
  exact ⟨h.1, h.2.2.1⟩

/-!
### Claim C10: the "Distance in Runs" value
-/

theorem foldl_add_from (l : List ℚ) :
    ∀ a : ℚ, l.foldl (fun x y => x + y) a = a + l.sum := by
  induction l with
  | nil => intro a; simp
  | cons b t ih => intro a; simp [List.sum_cons, ih, add_assoc]

/-- C10: the "Distance in Runs" value is the sum of `run_distances`
formatted to two decimal places; a `null`/`undefined` list sums over the
empty list, so the card renders "0.00 km" (and the computation is a
total function, so no exception is thrown). -/
theorem run_distance_sum_and_null_fallback :
    (∀ rd : Option (List ℚ), runDistanceCardValue rd
        = toFixed2 (sumRunDistances rd) ++ " km")
    ∧ (∀ l : List ℚ, sumRunDistances (some l) = l.sum)
    ∧ sumRunDistances none = 0
    ∧ runDistanceCardValue none = "0.00 km"
    ∧ runDistanceCardValue (some []) = "0.00 km"
    ∧ runDistanceCardValue (some [2, 3.5]) = "5.50 km" := by
  have hzero : toFixed2 0 = "0.00" := by
    have h0 : (⌊(0 : ℚ) * 100 + 1 / 2⌋ : ℤ) = 0 := by norm_num
    simp only [toFixed2, toFixed2Nonneg]
    rw [if_neg (by norm_num : ¬ (0 : ℚ) < 0), h0]
    rfl
  refine ⟨fun rd => rfl, fun l => ?_, rfl, ?_, ?_, ?_⟩
  · simpa [sumRunDistances] using foldl_add_from l 0
  · rw [runDistanceCardValue, totalRunDistance,
      show sumRunDistances none = 0 from rfl, hzero]
    rfl
  · rw [runDistanceCardValue, totalRunDistance,
      show sumRunDistances (some []) = 0 from rfl, hzero]
    rfl
  · have hsum : sumRunDistances (some [2, 3.5]) = 5.5 := by
      simp [sumRunDistances]
      norm_num
    have h550 : (⌊(5.5 : ℚ) * 100 + 1 / 2⌋ : ℤ) = 550 := by norm_num
    rw [runDistanceCardValue, totalRunDistance, hsum]
    simp only [toFixed2, toFixed2Nonneg]
    rw [if_neg (by norm_num : ¬ (5.5 : ℚ) < 0), h550]
    rfl

end AppleHealthWrapped
